import Mathlib

/-!
Verification of the container-schema module `ctapipe/io/containers.py`.

The module declares record ("container") types: each class body is a list of
`Field(default, description, unit=...)` declarations, possibly with `Map(...)`
(an initially empty keyed map) or a nested default container instance as the
default value.  The base classes `Container`, `Field` and `Map` live in
`ctapipe.core`, which is not part of the sources here; their construction,
field access and reflection semantics are modelled from the specification and
marked as such below.  Every schema definition is a direct transcription of
the corresponding class in `containers.py`.
-/

namespace ctapipe

/-- Physical units appearing in the field declarations
(`u.deg`, `u.rad`, `u.m`, `u.m**2`, `u.TeV`, `u.ns`, `u.electron`). -/
inductive PhysUnit where
  | deg
  | rad
  | m
  | m2
  | TeV
  | ns
  | electron
deriving DecidableEq, Repr

/-- Key of a keyed-map field: telescope id (int) or algorithm name (string). -/
inductive Key where
  | kInt (n : Int)
  | kStr (s : String)
deriving DecidableEq, Repr

/-- Element type recorded by a `Map(...)` declaration (the defaultdict
factory argument in the source: `Map(ndarray)`, `Map(float)`, `Map(int)`,
`Map()`, or `Map(SomeContainer)`). -/
inductive ElemTy where
  | ndarrayTy
  | floatTy
  | intTy
  | noneTy
  | containerTy (cls : String)
deriving DecidableEq, Repr

/-- Runtime values a container field can hold.  Python float literals used as
defaults in this module (`0.0`, `-1.0`, `0.`) are exactly representable, so
magnitudes are rationals with an explicit not-a-number constructor for `nan`;
`vTimeClass` is the `astropy.time.Time` class object itself (used as a default
in `CentralTriggerContainer`), distinct from a `Time` instance `vTime`. -/
inductive Value where
  | vInt (n : Int)
  | vFloat (q : Rat)
  | vNan
  | vBool (b : Bool)
  | vStr (s : String)
  | vNone
  | vTimeClass
  | vTime (mjd : Rat)
  | vSubarray (name : String)
  | vList (xs : List Value)
  | vMap (ty : ElemTy) (entries : List (Key × Value))
  | vQuantity (mag : Value) (unit : PhysUnit)
  | vRecord (fields : List (String × Value))

/-- A field declaration: default value, description and optional unit. -/
structure FieldDef where
  default : Value
  description : String
  unit : Option PhysUnit

/-- `Field(default, description)` with no unit keyword. -/
def Field (d : Value) (desc : String) : FieldDef :=
  ⟨d, desc, none⟩

/-- `Field(default, description, unit=u)` with a unit keyword. -/
def FieldU (d : Value) (desc : String) (u : PhysUnit) : FieldDef :=
  ⟨d, desc, some u⟩

/-- `Map(factory)`: a freshly constructed, empty keyed map. -/
def Map (ty : ElemTy) : Value :=
  .vMap ty []

/-- A container class: ordered list of named field declarations. -/
abbrev ContainerDef : Type :=
  List (String × FieldDef)

/-- A container instance: ordered list of field name / current value pairs. -/
abbrev Inst : Type :=
  List (String × Value)

/-- Modelled from the spec: `ctapipe.core.Container` construction with no
arguments is not in the sources; per the spec, it yields a fully-defaulted
instance, one entry per declared field, each holding the field's declared
default value. -/
def mkDefault (c : ContainerDef) : Inst :=
  c.map (fun f => (f.1, f.2.default))

/-- Transcription of `InstrumentContainer` (containers.py lines 36-55). -/
def InstrumentContainer : ContainerDef :=
  [ ("subarray", Field (.vSubarray "MonteCarloArray")
      "SubarrayDescription from the instrument module"),
    ("telescope_ids", Field (.vList [])
      "list of IDs of telescopes used in the run"),
    ("pixel_pos", Field (Map .ndarrayTy) "map of tel_id to pixel positions"),
    ("optical_foclen", Field (Map .ndarrayTy) "map of tel_id to focal length"),
    ("mirror_dish_area", FieldU (Map .floatTy)
      "map of tel_id to the area of the mirror dish" .m2),
    ("mirror_numtiles", Field (Map .intTy)
      "map of tel_id to the number of tiles for the mirror"),
    ("tel_pos", Field (Map .ndarrayTy) "map of tel_id to telescope position"),
    ("num_pixels", Field (Map .intTy)
      "map of tel_id to number of pixels in camera"),
    ("num_channels", Field (Map .intTy) "map of tel_id to number of channels") ]

/-- Transcription of `DL1CameraContainer` (lines 60-77). -/
def DL1CameraContainer : ContainerDef :=
  [ ("image", FieldU .vNone "np array of camera image" .electron),
    ("extracted_samples", Field .vNone
      "numpy array of bools indicating which samples were included in the charge extraction as a result of the charge extractor chosen. Shape=(nchan, npix, nsamples)."),
    ("peakpos", Field .vNone
      "numpy array containing position of the peak as determined by the peak-finding algorithm for each pixel and channel"),
    ("cleaned", Field .vNone
      "numpy array containing the waveform after cleaning") ]

/-- Transcription of `CameraCalibrationContainer` (lines 80-85). -/
def CameraCalibrationContainer : ContainerDef :=
  [ ("dc_to_pe", Field .vNone "DC/PE calibration arrays from MC file"),
    ("pedestal", Field .vNone "pedestal calibration arrays from MC file") ]

/-- Transcription of `DL1Container` (lines 88-90). -/
def DL1Container : ContainerDef :=
  [ ("tel", Field (Map (.containerTy "DL1CameraContainer"))
      "map of tel_id to DL1CameraContainer") ]

/-- Transcription of `R0CameraContainer` (lines 93-105). -/
def R0CameraContainer : ContainerDef :=
  [ ("adc_sums", Field .vNone
      "numpy array containing integrated ADC data (n_channels x n_pixels)"),
    ("adc_samples", Field .vNone
      "numpy array containing ADC samples(n_channels x n_pixels, n_samples)"),
    ("num_samples", Field .vNone "number of time samples for telescope") ]

/-- Transcription of `R0Container` (lines 109-117). -/
def R0Container : ContainerDef :=
  [ ("run_id", Field (.vInt (-1)) "run id number"),
    ("event_id", Field (.vInt (-1)) "event id number"),
    ("tels_with_data", Field (.vList []) "list of telescopes with data"),
    ("tel", Field (Map (.containerTy "R0CameraContainer"))
      "map of tel_id to R0CameraContainer") ]

/-- Transcription of `R1CameraContainer` (lines 120-127). -/
def R1CameraContainer : ContainerDef :=
  [ ("pe_samples", Field .vNone
      "numpy array containing p.e. samples(n_channels x n_pixels, n_samples)") ]

/-- Transcription of `R1Container` (lines 130-138). -/
def R1Container : ContainerDef :=
  [ ("run_id", Field (.vInt (-1)) "run id number"),
    ("event_id", Field (.vInt (-1)) "event id number"),
    ("tels_with_data", Field (.vList []) "list of telescopes with data"),
    ("tel", Field (Map (.containerTy "R1CameraContainer"))
      "map of tel_id to R1CameraContainer") ]

/-- Transcription of `DL0CameraContainer` (lines 141-149). -/
def DL0CameraContainer : ContainerDef :=
  [ ("pe_samples", Field .vNone
      "numpy array containing data volume reduced p.e. samples(n_channels x n_pixels, n_samples)") ]

/-- Transcription of `DL0Container` (lines 152-160). -/
def DL0Container : ContainerDef :=
  [ ("run_id", Field (.vInt (-1)) "run id number"),
    ("event_id", Field (.vInt (-1)) "event id number"),
    ("tels_with_data", Field (.vList []) "list of telescopes with data"),
    ("tel", Field (Map (.containerTy "DL0CameraContainer"))
      "map of tel_id to DL0CameraContainer") ]

/-- Transcription of `MCCameraEventContainer` (lines 163-188). -/
def MCCameraEventContainer : ContainerDef :=
  [ ("photo_electron_image", Field (Map .noneTy)
      "reference image in pure photoelectrons, with no noise"),
    ("reference_pulse_shape", Field .vNone
      "reference pulse shape for each channel"),
    ("time_slice", FieldU (.vInt 0) "width of time slice" .ns),
    ("dc_to_pe", Field .vNone "DC/PE calibration arrays from MC file"),
    ("pedestal", Field .vNone "pedestal calibration arrays from MC file"),
    ("azimuth_raw", Field (.vInt 0)
      "Raw azimuth angle [radians from N->E] for the telescope"),
    ("altitude_raw", Field (.vInt 0)
      "Raw altitude angle [radians] for the telescope"),
    ("azimuth_cor", Field (.vInt 0)
      "the tracking Azimuth corrected for pointing errors for the telescope"),
    ("altitude_cor", Field (.vInt 0)
      "the tracking Altitude corrected for pointing errors for the telescope") ]

/-- Transcription of `MCEventContainer` (lines 191-203). -/
def MCEventContainer : ContainerDef :=
  [ ("energy", FieldU (.vFloat 0) "Monte-Carlo Energy" .TeV),
    ("alt", FieldU (.vFloat 0) "Monte-carlo altitude" .deg),
    ("az", FieldU (.vFloat 0) "Monte-Carlo azimuth" .deg),
    ("core_x", FieldU (.vFloat 0) "MC core position" .m),
    ("core_y", FieldU (.vFloat 0) "MC core position" .m),
    ("h_first_int", Field (.vFloat 0) "Height of first interaction"),
    ("tel", Field (Map (.containerTy "MCCameraEventContainer"))
      "map of tel_id to MCCameraEventContainer") ]

/-- Transcription of `MCHeaderContainer` (lines 206-217). -/
def MCHeaderContainer : ContainerDef :=
  [ ("run_array_direction", Field (.vList [])
      "the tracking/pointing direction in [radians]. Depending on tracking_mode this either contains: [0]=Azimuth, [1]=Altitude in mode 0, OR [0]=R.A., [1]=Declination in mode 1.") ]

/-- Transcription of `CentralTriggerContainer` (lines 220-223): note that the
default of `gps_time` is the `Time` class object itself, not an instance. -/
def CentralTriggerContainer : ContainerDef :=
  [ ("gps_time", Field .vTimeClass "central average time stamp"),
    ("tels_with_trigger", Field (.vList []) "list of telescopes with data") ]

/-- Transcription of `ReconstructedShowerContainer` (lines 226-255). -/
def ReconstructedShowerContainer : ContainerDef :=
  [ ("alt", FieldU (.vFloat 0) "reconstructed altitude" .deg),
    ("alt_uncert", FieldU (.vFloat 0) "reconstructed altitude uncertainty" .deg),
    ("az", FieldU (.vFloat 0) "reconstructed azimuth" .deg),
    ("az_uncert", FieldU (.vFloat 0) "reconstructed azimuth uncertainty" .deg),
    ("core_x", FieldU (.vFloat 0)
      "reconstructed x coordinate of the core position" .m),
    ("core_y", FieldU (.vFloat 0)
      "reconstructed y coordinate of the core position" .m),
    ("core_uncert", FieldU (.vFloat 0)
      "uncertainty of the reconstructed core position" .m),
    ("h_max", Field (.vFloat 0) "reconstructed height of the shower maximum"),
    ("h_max_uncert", Field (.vFloat 0) "uncertainty of h_max"),
    ("is_valid", Field (.vBool false)
      "direction validity flag. True if the shower directionwas properly reconstructed by the algorithm"),
    ("tel_ids", Field (.vList [])
      "list of the telescope ids used in the reconstruction of the shower"),
    ("average_size", Field (.vFloat 0) "average size of used"),
    ("goodness_of_fit", Field (.vFloat 0)
      "measure of algorithm success (if fit)") ]

/-- Transcription of `ReconstructedEnergyContainer` (lines 258-273). -/
def ReconstructedEnergyContainer : ContainerDef :=
  [ ("energy", FieldU (.vFloat (-1)) "reconstructed energy" .TeV),
    ("energy_uncert", FieldU (.vFloat (-1))
      "reconstructed energy uncertainty" .TeV),
    ("is_valid", Field (.vBool false)
      "energy reconstruction validity flag. True if the energy was properly reconstructed by the algorithm"),
    ("tel_ids", Field (.vList [])
      "array containing the telescope ids used in the reconstruction of the shower"),
    ("goodness_of_fit", Field (.vFloat 0) "goodness of the algorithm fit") ]

/-- Transcription of `ParticleClassificationContainer` (lines 276-301). -/
def ParticleClassificationContainer : ContainerDef :=
  [ ("prediction", Field (.vFloat 0)
      "prediction of the classifier, defined between [0,1], where values close to 0 are more gamma-like, and values close to 1 more hadron-like"),
    ("is_valid", Field (.vBool false)
      "classificator validity flag. True if the predition was successful within the algorithm validity range"),
    ("tel_ids", Field (.vList [])
      "array containing the telescope ids used in the reconstruction of the shower"),
    ("goodness_of_fit", Field (.vFloat 0) "goodness of the algorithm fit") ]

/-- Transcription of `ReconstructedContainer` (lines 304-318). -/
def ReconstructedContainer : ContainerDef :=
  [ ("shower", Field (Map (.containerTy "ReconstructedShowerContainer"))
      "Map of algorithm name to shower info"),
    ("energy", Field (Map (.containerTy "ReconstructedEnergyContainer"))
      "Map of algorithm name to energy info"),
    ("classification",
      Field (Map (.containerTy "ParticleClassificationContainer"))
      "Map of algorithm name to classification info") ]

/-- Transcription of `TelescopePointingContainer` (lines 321-329): the
defaults are the quantities `nan * u.rad`. -/
def TelescopePointingContainer : ContainerDef :=
  [ ("azimuth", FieldU (.vQuantity .vNan .rad) "Azimuth, measured N->E" .rad),
    ("altitude", FieldU (.vQuantity .vNan .rad) "Altitude" .rad) ]

/-- Transcription of `DataContainer` (lines 332-345): the top-level event
record, whose defaults are freshly constructed stage containers. -/
def DataContainer : ContainerDef :=
  [ ("r0", Field (.vRecord (mkDefault R0Container)) "Raw Data"),
    ("r1", Field (.vRecord (mkDefault R1Container)) "R1 Calibrated Data"),
    ("dl0", Field (.vRecord (mkDefault DL0Container))
      "DL0 Data Volume Reduced Data"),
    ("dl1", Field (.vRecord (mkDefault DL1Container)) "DL1 Calibrated image"),
    ("dl2", Field (.vRecord (mkDefault ReconstructedContainer))
      "Reconstructed Shower Information"),
    ("mc", Field (.vRecord (mkDefault MCEventContainer)) "Monte-Carlo data"),
    ("mcheader", Field (.vRecord (mkDefault MCHeaderContainer))
      "Monte-Carlo run header data"),
    ("trig", Field (.vRecord (mkDefault CentralTriggerContainer))
      "central trigger information"),
    ("count", Field (.vInt 0) "number of events processed"),
    ("inst", Field (.vRecord (mkDefault InstrumentContainer))
      "instrumental information (deprecated"),
    ("pointing", Field (Map (.containerTy "TelescopePointingContainer"))
      "Telescope pointing positions") ]

/-- Transcription of `MuonRingParameter` (lines 348-378). -/
def MuonRingParameter : ContainerDef :=
  [ ("run_id", Field (.vInt 0) "run identification number"),
    ("event_id", Field (.vInt 0) "event identification number"),
    ("tel_id", Field (.vInt 0) "telescope identification number"),
    ("ring_center_x", Field (.vFloat 0) "centre (x) of the fitted muon ring"),
    ("ring_center_y", Field (.vFloat 0) "centre (y) of the fitted muon ring"),
    ("ring_radius", Field (.vFloat 0) "radius of the fitted muon ring"),
    ("ring_chi2_fit", Field (.vFloat 0) "chisquare of the muon ring fit"),
    ("ring_cov_matrix", Field (.vFloat 0)
      "covariance matrix of the muon ring fit"),
    ("ring_fit_method", Field (.vStr "")
      "fitting method used for the muon ring"),
    ("inputfile", Field (.vStr "") "input file") ]

/-- Transcription of `MuonIntensityParameter` (lines 381-446). -/
def MuonIntensityParameter : ContainerDef :=
  [ ("run_id", Field (.vInt 0) "run identification number"),
    ("event_id", Field (.vInt 0) "event identification number"),
    ("tel_id", Field (.vInt 0) "telescope identification number"),
    ("ring_completeness", Field (.vFloat 0) "fraction of ring present"),
    ("ring_num_pixel", Field (.vInt 0) "number of pixels in the ring image"),
    ("ring_size", Field (.vFloat 0) "size of the ring in pe"),
    ("off_ring_size", Field (.vFloat 0) "image size outside of ring in pe"),
    ("ring_width", Field (.vFloat 0) "width of the muon ring in degrees"),
    ("ring_time_width", Field (.vFloat 0)
      "duration of the ring image sequence"),
    ("impact_parameter", Field (.vFloat 0)
      "distance of muon impact position from centre of mirror"),
    ("impact_parameter_chi2", Field (.vFloat 0)
      "impact parameter chi squared"),
    ("intensity_cov_matrix", Field (.vFloat 0)
      "covariance matrix of intensity"),
    ("impact_parameter_pos_x", Field (.vFloat 0)
      "impact parameter x position"),
    ("impact_parameter_pos_y", Field (.vFloat 0)
      "impact parameter y position"),
    ("COG_x", Field (.vFloat 0) "Centre of Gravity x"),
    ("COG_y", Field (.vFloat 0) "Centre of Gravity y"),
    ("prediction", Field (.vList []) "image prediction"),
    ("mask", Field (.vList []) "image pixel mask"),
    ("optical_efficiency_muon", Field (.vFloat 0)
      "optical efficiency muon"),
    ("intensity_fit_method", Field (.vStr "") "intensity fit method"),
    ("inputfile", Field (.vStr "") "input file") ]

/-- Transcription of `HillasParametersContainer` (lines 449-463). -/
def HillasParametersContainer : ContainerDef :=
  [ ("intensity", Field (.vFloat 0) "total intensity (size)"),
    ("x", Field (.vFloat 0) "centroid x coordinate"),
    ("y", Field (.vFloat 0) "centroid x coordinate"),
    ("r", Field (.vFloat 0) "radial coordinate of centroid"),
    ("phi", FieldU (.vFloat 0) "polar coordinate of centroid" .deg),
    ("length", Field (.vFloat 0) "RMS spread along the major-axis"),
    ("width", Field (.vFloat 0) "RMS spread along the minor-axis"),
    ("psi", FieldU (.vFloat 0) "rotation angle of ellipse" .deg),
    ("skewness", Field (.vFloat 0) "measure of the asymmetry"),
    ("kurtosis", Field (.vFloat 0) "measure of the tailedness") ]

/-- All container classes declared by the module, in source order. -/
def allContainers : List ContainerDef :=
  [ InstrumentContainer, DL1CameraContainer, CameraCalibrationContainer,
    DL1Container, R0CameraContainer, R0Container, R1CameraContainer,
    R1Container, DL0CameraContainer, DL0Container, MCCameraEventContainer,
    MCEventContainer, MCHeaderContainer, CentralTriggerContainer,
    ReconstructedShowerContainer, ReconstructedEnergyContainer,
    ParticleClassificationContainer, ReconstructedContainer,
    TelescopePointingContainer, DataContainer, MuonRingParameter,
    MuonIntensityParameter, HillasParametersContainer ]

/-- Modelled from the spec: reading a declared field of a container instance
(`ctapipe.core.Container` attribute access is not in the sources); returns
the current value of the named field, `none` if no such field exists. -/
def getField : Inst → String → Option Value
  | [], _ => none
  | (k, w) :: rest, n => if k = n then some w else getField rest n

/-- Modelled from the spec: overwriting a field of a container instance with
a value; any field can be overwritten post-construction with any value, with
no validation at this layer (the `ctapipe.core.Container` setattr semantics
are not in the sources). -/
def setField : Inst → String → Value → Inst
  | [], n, v => [(n, v)]
  | (k, w) :: rest, n, v =>
      if k = n then (n, v) :: rest else (k, w) :: setField rest n v

/-- Modelled from the spec: looking up a key in a keyed-map field
(`ctapipe.core.Map` is not in the sources). -/
def mapGet : List (Key × Value) → Key → Option Value
  | [], _ => none
  | (k, w) :: rest, q => if k = q then some w else mapGet rest q

/-- Modelled from the spec: map population by external pipeline stages, with
unique keys — inserting under an existing key replaces its entry
(`ctapipe.core.Map` is not in the sources). -/
def mapInsert : List (Key × Value) → Key → Value → List (Key × Value)
  | [], q, v => [(q, v)]
  | (k, w) :: rest, q, v =>
      if k = q then (q, v) :: rest else (k, w) :: mapInsert rest q v

/-- Modelled from the spec: a pipeline stage inserting a leaf record under a
key into one keyed-map field of an instance; a non-map field is left
unchanged. -/
def insertIntoMapField (i : Inst) (fld : String) (q : Key) (v : Value) :
    Inst :=
  match getField i fld with
  | some (.vMap ty entries) => setField i fld (.vMap ty (mapInsert entries q v))
  | _ => i

/-- Modelled from the spec: a pipeline stage appending an element to a
list-valued field of an instance; a non-list field is left unchanged. -/
def appendToListField (i : Inst) (fld : String) (v : Value) : Inst :=
  match getField i fld with
  | some (.vList xs) => setField i fld (.vList (xs ++ [v]))
  | _ => i

/-- Modelled from the spec: a pipeline stage updating a nested record held in
a field of an outer instance (e.g. populating `event.r0.tel`); a non-record
field is left unchanged. -/
def modifyNested (i : Inst) (outer : String) (f : Inst → Inst) : Inst :=
  match getField i outer with
  | some (.vRecord r) => setField i outer (.vRecord (f r))
  | _ => i

/-- Number of entries of a keyed-map value (zero on non-map values). -/
def mapLen : Value → Nat
  | .vMap _ m => m.length
  | _ => 0

/-- Modelled from the spec: the generic reflection-based field-walk required
by the serialization layer — for every declared field of the schema, its
name, its current value on the instance (the declared default when the
instance lacks the entry), its default value, and its unit. -/
def walk (c : ContainerDef) (i : Inst) :
    List (String × Value × Value × Option PhysUnit) :=
  c.map (fun f => (f.1, (getField i f.1).getD f.2.default, f.2.default,
    f.2.unit))

/-- The field names enumerated by the reflection walk. -/
def walkNames (c : ContainerDef) (i : Inst) : List String :=
  (walk c i).map (fun e => e.1)

/-- The unit metadata a schema declares for a named field. -/
def fieldUnit : ContainerDef → String → Option PhysUnit
  | [], _ => none
  | (k, f) :: rest, n => if k = n then f.unit else fieldUnit rest n

/-- Modelled from the spec: reading a field together with its unit metadata —
the schema carries the unit alongside the numeric value. -/
def getWithUnit (c : ContainerDef) (i : Inst) (n : String) :
    Option (Value × Option PhysUnit) :=
  (getField i n).map (fun v => (v, fieldUnit c n))

/-- Adding two magnitudes; `nan` propagates, as does any non-numeric value. -/
def addMag : Value → Value → Value
  | .vFloat a, .vFloat b => .vFloat (a + b)
  | _, _ => .vNan

/-- Modelled from the spec: downstream arithmetic on unit-tagged quantities —
the representation makes it impossible to silently mix values with
different, unconverted units, so adding quantities with mismatched units is
an error rather than a silent numeric result. -/
def qadd : Value → Value → Except String Value
  | .vQuantity a u1, .vQuantity b u2 =>
      if u1 = u2 then .ok (.vQuantity (addMag a b) u1)
      else .error "cannot add quantities with different units"
  | _, _ => .error "not unit-tagged quantities"

/-- Modelled from the spec: construction as a fallible operation — per the
spec it cannot fail, so it always returns the fully-defaulted instance. -/
def mkDefaultE (c : ContainerDef) : Except String Inst :=
  .ok (mkDefault c)

/-- Modelled from the spec: field write as a fallible operation — the schema
never raises on write and performs no validation of the assigned value, so
every write succeeds. -/
def setFieldE (i : Inst) (n : String) (v : Value) : Except String Inst :=
  .ok (setField i n v)

/-- Modelled from the spec: field read as a fallible operation — the schema
never raises on read, so every read of a declared field succeeds. -/
def getFieldE (i : Inst) (n : String) : Except String (Option Value) :=
  .ok (getField i n)

/-- Claim C5: a `ReconstructedShowerContainer` constructed with no arguments
has `is_valid = False` and its `alt`, `az`, `core_x`, `core_y` fields all
equal their documented zero defaults, realizing the not-yet-computed
placeholder convention. -/
theorem claim_C5_shower_placeholder :
    getField (mkDefault ReconstructedShowerContainer) "is_valid" =
      some (.vBool false) ∧
    getField (mkDefault ReconstructedShowerContainer) "alt" =
      some (.vFloat 0) ∧
    getField (mkDefault ReconstructedShowerContainer) "az" =
      some (.vFloat 0) ∧
    getField (mkDefault ReconstructedShowerContainer) "core_x" =
      some (.vFloat 0) ∧
    getField (mkDefault ReconstructedShowerContainer) "core_y" =
      some (.vFloat 0) :=
  ⟨rfl, rfl, rfl, rfl, rfl⟩

/-- Claim C6: the not-yet-computed sentinel defaults — a default
`ReconstructedEnergyContainer` has `energy` and `energy_uncert` equal to the
negative sentinel `-1.0` and `is_valid = False`, and a default
`TelescopePointingContainer` has `azimuth` and `altitude` equal to the
not-a-number sentinel carrying radians. -/
theorem claim_C6_sentinel_defaults :
    getField (mkDefault ReconstructedEnergyContainer) "energy" =
      some (.vFloat (-1)) ∧
    getField (mkDefault ReconstructedEnergyContainer) "energy_uncert" =
      some (.vFloat (-1)) ∧
    getField (mkDefault ReconstructedEnergyContainer) "is_valid" =
      some (.vBool false) ∧
    getField (mkDefault TelescopePointingContainer) "azimuth" =
      some (.vQuantity .vNan .rad) ∧
    getField (mkDefault TelescopePointingContainer) "altitude" =
      some (.vQuantity .vNan .rad) :=
  ⟨rfl, rfl, rfl, rfl, rfl⟩

/-- Claim C10: on a default-constructed `CentralTriggerContainer`, the
`gps_time` field's default is the `Time` class object itself, not a `Time`
instance, so the default is not a usable timestamp value. -/
theorem claim_C10_gps_time_class_default :
    getField (mkDefault CentralTriggerContainer) "gps_time" =
      some .vTimeClass ∧
    (∀ t : Rat, Value.vTimeClass ≠ Value.vTime t) :=
  ⟨rfl, fun _ h => Value.noConfusion h⟩

/-- Claim C4: every keyed-map field of every container type defaults to an
empty map — never null/absent — with zero entries, on a freshly constructed
instance. -/
theorem claim_C4_empty_map_defaults :
    getField (mkDefault InstrumentContainer) "pixel_pos" =
      some (.vMap .ndarrayTy []) ∧
    getField (mkDefault InstrumentContainer) "optical_foclen" =
      some (.vMap .ndarrayTy []) ∧
    getField (mkDefault InstrumentContainer) "mirror_dish_area" =
      some (.vMap .floatTy []) ∧
    getField (mkDefault InstrumentContainer) "mirror_numtiles" =
      some (.vMap .intTy []) ∧
    getField (mkDefault InstrumentContainer) "tel_pos" =
      some (.vMap .ndarrayTy []) ∧
    getField (mkDefault InstrumentContainer) "num_pixels" =
      some (.vMap .intTy []) ∧
    getField (mkDefault InstrumentContainer) "num_channels" =
      some (.vMap .intTy []) ∧
    getField (mkDefault DL1Container) "tel" =
      some (.vMap (.containerTy "DL1CameraContainer") []) ∧
    getField (mkDefault R0Container) "tel" =
      some (.vMap (.containerTy "R0CameraContainer") []) ∧
    getField (mkDefault R1Container) "tel" =
      some (.vMap (.containerTy "R1CameraContainer") []) ∧
    getField (mkDefault DL0Container) "tel" =
      some (.vMap (.containerTy "DL0CameraContainer") []) ∧
    getField (mkDefault MCCameraEventContainer) "photo_electron_image" =
      some (.vMap .noneTy []) ∧
    getField (mkDefault MCEventContainer) "tel" =
      some (.vMap (.containerTy "MCCameraEventContainer") []) ∧
    getField (mkDefault ReconstructedContainer) "shower" =
      some (.vMap (.containerTy "ReconstructedShowerContainer") []) ∧
    getField (mkDefault ReconstructedContainer) "energy" =
      some (.vMap (.containerTy "ReconstructedEnergyContainer") []) ∧
    getField (mkDefault ReconstructedContainer) "classification" =
      some (.vMap (.containerTy "ParticleClassificationContainer") []) ∧
    getField (mkDefault DataContainer) "pointing" =
      some (.vMap (.containerTy "TelescopePointingContainer") []) ∧
    (∀ ty, mapLen (Value.vMap ty []) = 0) :=
  ⟨rfl, rfl, rfl, rfl, rfl, rfl, rfl, rfl, rfl, rfl, rfl, rfl, rfl, rfl,
    rfl, rfl, rfl, fun _ => rfl⟩

/-- Claim C1: constructing any container type of the module with no
arguments yields an instance in which every field equals its documented
default value (e.g. `R0Container`: `run_id = -1`, `event_id = -1`,
`tels_with_data = []`, `tel` an empty map; `ReconstructedShowerContainer`:
`alt = 0.0`, `is_valid = False`, `goodness_of_fit = 0.0`). -/
theorem claim_C1_default_construction :
    mkDefault InstrumentContainer =
      [ ("subarray", .vSubarray "MonteCarloArray"),
        ("telescope_ids", .vList []),
        ("pixel_pos", .vMap .ndarrayTy []),
        ("optical_foclen", .vMap .ndarrayTy []),
        ("mirror_dish_area", .vMap .floatTy []),
        ("mirror_numtiles", .vMap .intTy []),
        ("tel_pos", .vMap .ndarrayTy []),
        ("num_pixels", .vMap .intTy []),
        ("num_channels", .vMap .intTy []) ] ∧
    mkDefault DL1CameraContainer =
      [ ("image", .vNone), ("extracted_samples", .vNone),
        ("peakpos", .vNone), ("cleaned", .vNone) ] ∧
    mkDefault CameraCalibrationContainer =
      [ ("dc_to_pe", .vNone), ("pedestal", .vNone) ] ∧
    mkDefault DL1Container =
      [ ("tel", .vMap (.containerTy "DL1CameraContainer") []) ] ∧
    mkDefault R0CameraContainer =
      [ ("adc_sums", .vNone), ("adc_samples", .vNone),
        ("num_samples", .vNone) ] ∧
    mkDefault R0Container =
      [ ("run_id", .vInt (-1)), ("event_id", .vInt (-1)),
        ("tels_with_data", .vList []),
        ("tel", .vMap (.containerTy "R0CameraContainer") []) ] ∧
    mkDefault R1CameraContainer = [ ("pe_samples", .vNone) ] ∧
    mkDefault R1Container =
      [ ("run_id", .vInt (-1)), ("event_id", .vInt (-1)),
        ("tels_with_data", .vList []),
        ("tel", .vMap (.containerTy "R1CameraContainer") []) ] ∧
    mkDefault DL0CameraContainer = [ ("pe_samples", .vNone) ] ∧
    mkDefault DL0Container =
      [ ("run_id", .vInt (-1)), ("event_id", .vInt (-1)),
        ("tels_with_data", .vList []),
        ("tel", .vMap (.containerTy "DL0CameraContainer") []) ] ∧
    mkDefault MCCameraEventContainer =
      [ ("photo_electron_image", .vMap .noneTy []),
        ("reference_pulse_shape", .vNone),
        ("time_slice", .vInt 0), ("dc_to_pe", .vNone),
        ("pedestal", .vNone), ("azimuth_raw", .vInt 0),
        ("altitude_raw", .vInt 0), ("azimuth_cor", .vInt 0),
        ("altitude_cor", .vInt 0) ] ∧
    mkDefault MCEventContainer =
      [ ("energy", .vFloat 0), ("alt", .vFloat 0), ("az", .vFloat 0),
        ("core_x", .vFloat 0), ("core_y", .vFloat 0),
        ("h_first_int", .vFloat 0),
        ("tel", .vMap (.containerTy "MCCameraEventContainer") []) ] ∧
    mkDefault MCHeaderContainer = [ ("run_array_direction", .vList []) ] ∧
    mkDefault CentralTriggerContainer =
      [ ("gps_time", .vTimeClass), ("tels_with_trigger", .vList []) ] ∧
    mkDefault ReconstructedShowerContainer =
      [ ("alt", .vFloat 0), ("alt_uncert", .vFloat 0), ("az", .vFloat 0),
        ("az_uncert", .vFloat 0), ("core_x", .vFloat 0),
        ("core_y", .vFloat 0), ("core_uncert", .vFloat 0),
        ("h_max", .vFloat 0), ("h_max_uncert", .vFloat 0),
        ("is_valid", .vBool false), ("tel_ids", .vList []),
        ("average_size", .vFloat 0), ("goodness_of_fit", .vFloat 0) ] ∧
    mkDefault ReconstructedEnergyContainer =
      [ ("energy", .vFloat (-1)), ("energy_uncert", .vFloat (-1)),
        ("is_valid", .vBool false), ("tel_ids", .vList []),
        ("goodness_of_fit", .vFloat 0) ] ∧
    mkDefault ParticleClassificationContainer =
      [ ("prediction", .vFloat 0), ("is_valid", .vBool false),
        ("tel_ids", .vList []), ("goodness_of_fit", .vFloat 0) ] ∧
    mkDefault ReconstructedContainer =
      [ ("shower", .vMap (.containerTy "ReconstructedShowerContainer") []),
        ("energy", .vMap (.containerTy "ReconstructedEnergyContainer") []),
        ("classification",
          .vMap (.containerTy "ParticleClassificationContainer") []) ] ∧
    mkDefault TelescopePointingContainer =
      [ ("azimuth", .vQuantity .vNan .rad),
        ("altitude", .vQuantity .vNan .rad) ] ∧
    mkDefault DataContainer =
      [ ("r0", .vRecord (mkDefault R0Container)),
        ("r1", .vRecord (mkDefault R1Container)),
        ("dl0", .vRecord (mkDefault DL0Container)),
        ("dl1", .vRecord (mkDefault DL1Container)),
        ("dl2", .vRecord (mkDefault ReconstructedContainer)),
        ("mc", .vRecord (mkDefault MCEventContainer)),
        ("mcheader", .vRecord (mkDefault MCHeaderContainer)),
        ("trig", .vRecord (mkDefault CentralTriggerContainer)),
        ("count", .vInt 0),
        ("inst", .vRecord (mkDefault InstrumentContainer)),
        ("pointing", .vMap (.containerTy "TelescopePointingContainer") []) ] ∧
    mkDefault MuonRingParameter =
      [ ("run_id", .vInt 0), ("event_id", .vInt 0), ("tel_id", .vInt 0),
        ("ring_center_x", .vFloat 0), ("ring_center_y", .vFloat 0),
        ("ring_radius", .vFloat 0), ("ring_chi2_fit", .vFloat 0),
        ("ring_cov_matrix", .vFloat 0), ("ring_fit_method", .vStr ""),
        ("inputfile", .vStr "") ] ∧
    mkDefault MuonIntensityParameter =
      [ ("run_id", .vInt 0), ("event_id", .vInt 0), ("tel_id", .vInt 0),
        ("ring_completeness", .vFloat 0), ("ring_num_pixel", .vInt 0),
        ("ring_size", .vFloat 0), ("off_ring_size", .vFloat 0),
        ("ring_width", .vFloat 0), ("ring_time_width", .vFloat 0),
        ("impact_parameter", .vFloat 0),
        ("impact_parameter_chi2", .vFloat 0),
        ("intensity_cov_matrix", .vFloat 0),
        ("impact_parameter_pos_x", .vFloat 0),
        ("impact_parameter_pos_y", .vFloat 0),
        ("COG_x", .vFloat 0), ("COG_y", .vFloat 0),
        ("prediction", .vList []), ("mask", .vList []),
        ("optical_efficiency_muon", .vFloat 0),
        ("intensity_fit_method", .vStr ""), ("inputfile", .vStr "") ] ∧
    mkDefault HillasParametersContainer =
      [ ("intensity", .vFloat 0), ("x", .vFloat 0), ("y", .vFloat 0),
        ("r", .vFloat 0), ("phi", .vFloat 0), ("length", .vFloat 0),
        ("width", .vFloat 0), ("psi", .vFloat 0), ("skewness", .vFloat 0),
        ("kurtosis", .vFloat 0) ] :=
  ⟨rfl, rfl, rfl, rfl, rfl, rfl, rfl, rfl, rfl, rfl, rfl, rfl, rfl, rfl,
    rfl, rfl, rfl, rfl, rfl, rfl, rfl, rfl, rfl⟩

/-- Writing a field and reading it back returns exactly the written value. -/
theorem get_set_same (i : Inst) (n : String) (v : Value) :
    getField (setField i n v) n = some v := by
  induction i with
  | nil => simp [setField, getField]
  | cons p rest ih =>
    obtain ⟨k, w⟩ := p
    by_cases h : k = n
    · simp [setField, getField, h]
    · simp [setField, getField, h, ih]

/-- Inserting a map entry and looking its key up returns the inserted
value. -/
theorem mapGet_mapInsert_same (m : List (Key × Value)) (q : Key) (v : Value) :
    mapGet (mapInsert m q v) q = some v := by
  induction m with
  | nil => simp [mapInsert, mapGet]
  | cons p rest ih =>
    obtain ⟨k, w⟩ := p
    by_cases h : k = q
    · simp [mapInsert, mapGet, h]
    · simp [mapInsert, mapGet, h, ih]

/-- The reflection walk enumerates exactly the schema's declared field
names, regardless of the instance it is applied to. -/
theorem walkNames_eq_decl (c : ContainerDef) (i : Inst) :
    walkNames c i = c.map (fun f => f.1) := by
  simp only [walkNames, walk, List.map_map]
  rfl

/-- Default construction yields exactly one entry per declared field, in
declaration order. -/
theorem mkDefault_names (c : ContainerDef) :
    (mkDefault c).map (fun f => f.1) = c.map (fun f => f.1) := by
  simp only [mkDefault, List.map_map]
  rfl

/-- Claim C2: separately constructed aggregator records are independent —
inserting a leaf record under telescope id 1 into one instance's
per-telescope map (or appending to its `tels_with_data` list, or populating
the nested `r0.tel` map of one `DataContainer`) leaves a separately
constructed default instance's corresponding field empty. -/
theorem claim_C2_nesting_integrity :
    getField (mkDefault R0Container) "tels_with_data" = some (.vList []) ∧
    getField (mkDefault R0Container) "tel" =
      some (.vMap (.containerTy "R0CameraContainer") []) ∧
    getField
        (insertIntoMapField (mkDefault R0Container) "tel" (.kInt 1)
          (.vRecord (mkDefault R0CameraContainer))) "tel" =
      some (.vMap (.containerTy "R0CameraContainer")
        [(.kInt 1, .vRecord (mkDefault R0CameraContainer))]) ∧
    getField
        (appendToListField (mkDefault R0Container) "tels_with_data"
          (.vInt 1)) "tels_with_data" =
      some (.vList [.vInt 1]) ∧
    getField
        (modifyNested (mkDefault DataContainer) "r0"
          (fun r => insertIntoMapField r "tel" (.kInt 1)
            (.vRecord (mkDefault R0CameraContainer)))) "r0" =
      some (.vRecord
        [ ("run_id", .vInt (-1)), ("event_id", .vInt (-1)),
          ("tels_with_data", .vList []),
          ("tel", .vMap (.containerTy "R0CameraContainer")
            [(.kInt 1, .vRecord (mkDefault R0CameraContainer))]) ]) ∧
    getField (mkDefault DataContainer) "r0" =
      some (.vRecord
        [ ("run_id", .vInt (-1)), ("event_id", .vInt (-1)),
          ("tels_with_data", .vList []),
          ("tel", .vMap (.containerTy "R0CameraContainer") []) ]) ∧
    getField
        (insertIntoMapField (mkDefault DataContainer) "pointing" (.kInt 1)
          (.vRecord (mkDefault TelescopePointingContainer))) "pointing" =
      some (.vMap (.containerTy "TelescopePointingContainer")
        [(.kInt 1, .vRecord (mkDefault TelescopePointingContainer))]) ∧
    getField (mkDefault DataContainer) "pointing" =
      some (.vMap (.containerTy "TelescopePointingContainer") []) :=
  ⟨rfl, rfl, rfl, rfl, rfl, rfl, rfl, rfl⟩

/-- Claim C3: every unit-declared numeric field carries its documented unit
as metadata alongside the value (`MCEventContainer.energy` in TeV,
`ReconstructedShowerContainer.alt` in deg, `TelescopePointingContainer`
angles in rad with quantity-valued defaults,
`InstrumentContainer.mirror_dish_area` in m^2, etc.), and quantities with
different, unconverted units cannot be silently mixed in arithmetic. -/
theorem claim_C3_unit_metadata :
    fieldUnit MCEventContainer "energy" = some .TeV ∧
    fieldUnit MCEventContainer "alt" = some .deg ∧
    fieldUnit MCEventContainer "az" = some .deg ∧
    fieldUnit MCEventContainer "core_x" = some .m ∧
    fieldUnit MCEventContainer "core_y" = some .m ∧
    fieldUnit InstrumentContainer "mirror_dish_area" = some .m2 ∧
    fieldUnit DL1CameraContainer "image" = some .electron ∧
    fieldUnit MCCameraEventContainer "time_slice" = some .ns ∧
    fieldUnit ReconstructedShowerContainer "alt" = some .deg ∧
    fieldUnit ReconstructedShowerContainer "alt_uncert" = some .deg ∧
    fieldUnit ReconstructedShowerContainer "az" = some .deg ∧
    fieldUnit ReconstructedShowerContainer "az_uncert" = some .deg ∧
    fieldUnit ReconstructedShowerContainer "core_x" = some .m ∧
    fieldUnit ReconstructedShowerContainer "core_y" = some .m ∧
    fieldUnit ReconstructedShowerContainer "core_uncert" = some .m ∧
    fieldUnit ReconstructedEnergyContainer "energy" = some .TeV ∧
    fieldUnit ReconstructedEnergyContainer "energy_uncert" = some .TeV ∧
    fieldUnit TelescopePointingContainer "azimuth" = some .rad ∧
    fieldUnit TelescopePointingContainer "altitude" = some .rad ∧
    fieldUnit HillasParametersContainer "phi" = some .deg ∧
    fieldUnit HillasParametersContainer "psi" = some .deg ∧
    getWithUnit MCEventContainer (mkDefault MCEventContainer) "energy" =
      some (.vFloat 0, some .TeV) ∧
    getWithUnit TelescopePointingContainer
        (mkDefault TelescopePointingContainer) "azimuth" =
      some (.vQuantity .vNan .rad, some .rad) ∧
    getWithUnit ReconstructedShowerContainer
        (mkDefault ReconstructedShowerContainer) "alt" =
      some (.vFloat 0, some .deg) ∧
    getWithUnit InstrumentContainer (mkDefault InstrumentContainer)
        "mirror_dish_area" =
      some (.vMap .floatTy [], some .m2) ∧
    (∀ (a b : Value) (u1 u2 : PhysUnit),
      (∃ r, qadd (.vQuantity a u1) (.vQuantity b u2) = .ok r) ↔ u1 = u2) := by
  refine ⟨rfl, rfl, rfl, rfl, rfl, rfl, rfl, rfl, rfl, rfl, rfl, rfl, rfl,
    rfl, rfl, rfl, rfl, rfl, rfl, rfl, rfl, rfl, rfl, rfl, rfl, ?_⟩
  intro a b u1 u2
  by_cases h : u1 = u2 <;> simp [qadd, h]

/-- Claim C7: set-then-get round-trip identity — writing any value into any
field of any container instance and reading the field back returns exactly
the written value, and likewise for keyed-map entries. -/
theorem claim_C7_set_get_roundtrip :
    (∀ (i : Inst) (n : String) (v : Value),
      getField (setField i n v) n = some v) ∧
    (∀ (m : List (Key × Value)) (q : Key) (v : Value),
      mapGet (mapInsert m q v) q = some v) :=
  ⟨get_set_same, mapGet_mapInsert_same⟩

/-- Claim C8: the generic reflection field-walk over any instance of any
container type enumerates exactly the statically declared field set — no
more, no fewer — and exposes each field's name, current value, default
value and unit. -/
theorem claim_C8_reflection :
    (∀ (c : ContainerDef) (i : Inst),
      walkNames c i = c.map (fun f => f.1)) ∧
    (∀ i, walkNames InstrumentContainer i =
      [ "subarray", "telescope_ids", "pixel_pos", "optical_foclen",
        "mirror_dish_area", "mirror_numtiles", "tel_pos", "num_pixels",
        "num_channels" ]) ∧
    (∀ i, walkNames DL1CameraContainer i =
      ["image", "extracted_samples", "peakpos", "cleaned"]) ∧
    (∀ i, walkNames CameraCalibrationContainer i =
      ["dc_to_pe", "pedestal"]) ∧
    (∀ i, walkNames DL1Container i = ["tel"]) ∧
    (∀ i, walkNames R0CameraContainer i =
      ["adc_sums", "adc_samples", "num_samples"]) ∧
    (∀ i, walkNames R0Container i =
      ["run_id", "event_id", "tels_with_data", "tel"]) ∧
    (∀ i, walkNames R1CameraContainer i = ["pe_samples"]) ∧
    (∀ i, walkNames R1Container i =
      ["run_id", "event_id", "tels_with_data", "tel"]) ∧
    (∀ i, walkNames DL0CameraContainer i = ["pe_samples"]) ∧
    (∀ i, walkNames DL0Container i =
      ["run_id", "event_id", "tels_with_data", "tel"]) ∧
    (∀ i, walkNames MCCameraEventContainer i =
      [ "photo_electron_image", "reference_pulse_shape", "time_slice",
        "dc_to_pe", "pedestal", "azimuth_raw", "altitude_raw",
        "azimuth_cor", "altitude_cor" ]) ∧
    (∀ i, walkNames MCEventContainer i =
      ["energy", "alt", "az", "core_x", "core_y", "h_first_int", "tel"]) ∧
    (∀ i, walkNames MCHeaderContainer i = ["run_array_direction"]) ∧
    (∀ i, walkNames CentralTriggerContainer i =
      ["gps_time", "tels_with_trigger"]) ∧
    (∀ i, walkNames ReconstructedShowerContainer i =
      [ "alt", "alt_uncert", "az", "az_uncert", "core_x", "core_y",
        "core_uncert", "h_max", "h_max_uncert", "is_valid", "tel_ids",
        "average_size", "goodness_of_fit" ]) ∧
    (∀ i, walkNames ReconstructedEnergyContainer i =
      ["energy", "energy_uncert", "is_valid", "tel_ids",
        "goodness_of_fit"]) ∧
    (∀ i, walkNames ParticleClassificationContainer i =
      ["prediction", "is_valid", "tel_ids", "goodness_of_fit"]) ∧
    (∀ i, walkNames ReconstructedContainer i =
      ["shower", "energy", "classification"]) ∧
    (∀ i, walkNames TelescopePointingContainer i =
      ["azimuth", "altitude"]) ∧
    (∀ i, walkNames DataContainer i =
      [ "r0", "r1", "dl0", "dl1", "dl2", "mc", "mcheader", "trig",
        "count", "inst", "pointing" ]) ∧
    (∀ i, walkNames MuonRingParameter i =
      [ "run_id", "event_id", "tel_id", "ring_center_x", "ring_center_y",
        "ring_radius", "ring_chi2_fit", "ring_cov_matrix",
        "ring_fit_method", "inputfile" ]) ∧
    (∀ i, walkNames MuonIntensityParameter i =
      [ "run_id", "event_id", "tel_id", "ring_completeness",
        "ring_num_pixel", "ring_size", "off_ring_size", "ring_width",
        "ring_time_width", "impact_parameter", "impact_parameter_chi2",
        "intensity_cov_matrix", "impact_parameter_pos_x",
        "impact_parameter_pos_y", "COG_x", "COG_y", "prediction", "mask",
        "optical_efficiency_muon", "intensity_fit_method", "inputfile" ]) ∧
    (∀ i, walkNames HillasParametersContainer i =
      [ "intensity", "x", "y", "r", "phi", "length", "width", "psi",
        "skewness", "kurtosis" ]) ∧
    walk ReconstructedEnergyContainer
        (mkDefault ReconstructedEnergyContainer) =
      [ ("energy", .vFloat (-1), .vFloat (-1), some .TeV),
        ("energy_uncert", .vFloat (-1), .vFloat (-1), some .TeV),
        ("is_valid", .vBool false, .vBool false, none),
        ("tel_ids", .vList [], .vList [], none),
        ("goodness_of_fit", .vFloat 0, .vFloat 0, none) ] ∧
    walk HillasParametersContainer (mkDefault HillasParametersContainer) =
      [ ("intensity", .vFloat 0, .vFloat 0, none),
        ("x", .vFloat 0, .vFloat 0, none),
        ("y", .vFloat 0, .vFloat 0, none),
        ("r", .vFloat 0, .vFloat 0, none),
        ("phi", .vFloat 0, .vFloat 0, some .deg),
        ("length", .vFloat 0, .vFloat 0, none),
        ("width", .vFloat 0, .vFloat 0, none),
        ("psi", .vFloat 0, .vFloat 0, some .deg),
        ("skewness", .vFloat 0, .vFloat 0, none),
        ("kurtosis", .vFloat 0, .vFloat 0, none) ] :=
  ⟨walkNames_eq_decl, fun _ => rfl, fun _ => rfl, fun _ => rfl,
    fun _ => rfl, fun _ => rfl, fun _ => rfl, fun _ => rfl, fun _ => rfl,
    fun _ => rfl, fun _ => rfl, fun _ => rfl, fun _ => rfl, fun _ => rfl,
    fun _ => rfl, fun _ => rfl, fun _ => rfl, fun _ => rfl, fun _ => rfl,
    fun _ => rfl, fun _ => rfl, fun _ => rfl, fun _ => rfl, fun _ => rfl,
    rfl, rfl⟩

/-- Claim C9: default construction of any container type is total and
cannot fail, yields exactly the declared fields, and reading or writing any
field never raises; no validation of the assigned value is performed, so
any value written is accepted and stored. -/
theorem claim_C9_total_no_validation :
    (∀ c : ContainerDef, mkDefaultE c = .ok (mkDefault c)) ∧
    (∀ c : ContainerDef,
      (mkDefault c).map (fun f => f.1) = c.map (fun f => f.1)) ∧
    (∀ (i : Inst) (n : String) (v : Value),
      setFieldE i n v = .ok (setField i n v)) ∧
    (∀ (i : Inst) (n : String) (v : Value),
      getField (setField i n v) n = some v) ∧
    (∀ (i : Inst) (n : String), getFieldE i n = .ok (getField i n)) :=
  ⟨fun _ => rfl, mkDefault_names, fun _ _ _ => rfl, get_set_same,
    fun _ _ => rfl⟩

end ctapipe
